import Mathlib

/-!
Verification of the request handler of `rcp` (src/src/main.rs), a CORS
forwarding proxy built on actix-web and reqwest.  The handler `cors_proxy`
is a pure function of the captured URL path segment, the inbound method and
the inbound body, interacting with the network only through a single
outbound request; we embed it as a Lean function parameterised by an
upstream oracle, and additionally record the list of outbound requests
actually issued and a trace of the dispatch stages that were reached.
Strings are embedded as `List Char`, byte buffers as `List Nat`.
-/

namespace Rcp

/-- The separator `"://"` used by the source in `url.contains("://")` and
`url.split("://")` (main.rs lines 11 and 19). -/
def sepL : List Char := [':', '/', '/']

/-- The literal `"http://"` (main.rs lines 11 and 28). -/
def httpL : List Char := ['h', 't', 't', 'p', ':', '/', '/']

/-- The literal `"https://"` (main.rs lines 11 and 28). -/
def httpsL : List Char := ['h', 't', 't', 'p', 's', ':', '/', '/']

/-- Rust `s.contains(pat)`: `pat` occurs as a contiguous substring of `s`. -/
def containsSub (s pat : List Char) : Bool :=
  match s with
  | [] => pat.isEmpty
  | c :: t => pat.isPrefixOf (c :: t) || containsSub t pat

/-- Scanning worker for `lastPiece`: walks the string one position at a
time; whenever `"://"` starts at the current position the candidate answer
becomes the suffix after that occurrence.  Because `"://"` cannot overlap
itself, the final candidate is the suffix after the last occurrence, which
is exactly the last piece produced by Rust's `split("://")`. -/
def lastPieceGo : List Char → List Char → List Char
  | acc, [] => acc
  | acc, c :: t =>
    if sepL.isPrefixOf (c :: t) then lastPieceGo (t.drop 2) t
    else lastPieceGo acc t

/-- Rust `url.split("://").last().unwrap_or(url)` (main.rs line 19): the
portion of `url` after the last occurrence of `"://"`, or all of `url` when
`"://"` does not occur.  (`split` always yields at least one piece, so the
`unwrap_or` default is never used.) -/
def lastPiece (s : List Char) : List Char := lastPieceGo s s

/-- The protocol rejection test of main.rs line 11:
`url.contains("://") && !url.starts_with("http://") && !url.starts_with("https://")`. -/
def protoRejected (url : List Char) : Bool :=
  containsSub url sepL && !httpL.isPrefixOf url && !httpsL.isPrefixOf url

/-- The domain test of main.rs lines 19-20: the piece after the last
`"://"` must contain a `'.'`. -/
def hasDot (url : List Char) : Bool := (lastPiece url).contains '.'

/-- Normalization of main.rs lines 28-32: prepend `"https://"` when the URL
starts with neither `"http://"` nor `"https://"`, else pass it through. -/
def normalizeUrl (url : List Char) : List Char :=
  if !httpL.isPrefixOf url && !httpsL.isPrefixOf url then httpsL ++ url
  else url

/-- Inbound HTTP method as seen by actix (main.rs line 47); `ext` covers
extension methods. -/
inductive InMethod
  | get | post | put | delete | options | head | patch | connect | trace
  | ext (nm : List Char)
deriving DecidableEq

/-- Outbound (reqwest) method: the closed allowlist of main.rs lines 48-51. -/
inductive OutMethod
  | get | post | put | delete
deriving DecidableEq

/-- The method match of main.rs lines 47-58: the four allowlisted methods
map across, everything else falls to the `_` arm (`none` here, which the
handler turns into 405). -/
def toOutMethod : InMethod → Option OutMethod
  | .get => some .get
  | .post => some .post
  | .put => some .put
  | .delete => some .delete
  | _ => none

/-- Result of reading the upstream response body
(`response.bytes().await`, main.rs line 83). -/
inductive BodyRead
  | ok (bytes : List Nat)
  | err (msg : List Char)
deriving DecidableEq

/-- What the upstream interaction can produce: a transport-level failure of
`send()` (main.rs line 68), or a response carrying a status code (which the
handler never reads), an optional raw Content-Type header value (bytes) and
a body-read outcome. -/
inductive UpstreamResult
  | transportError (err : List Char)
  | response (status : Nat) (contentType : Option (List Nat)) (bodyRead : BodyRead)
deriving DecidableEq

/-- The upstream oracle: what the network does for a given outbound method,
URL and body. -/
abbrev Upstream := OutMethod → List Char → List Nat → UpstreamResult

/-- Models `http::HeaderValue::to_str`: it succeeds iff every byte is visible ASCII
(32..126) or horizontal tab (9); on success the bytes are read as chars.
Models the `header.to_str()` call of main.rs line 78. -/
def headerToStr? (bs : List Nat) : Option (List Char) :=
  if bs.all (fun b => (decide (32 ≤ b) && decide (b < 127)) || b == 9)
  then some (bs.map Char.ofNat)
  else none

/-- The default Content-Type literal of main.rs line 79. -/
def ctDefault : List Char := "application/json".toList

/-- Content-Type derivation of main.rs lines 75-80:
`.map(|header| header.to_str().unwrap()).unwrap_or("application/json")`.
When the header is absent the default is used; when present, `to_str()` is
`unwrap`ped — a non-decodable value makes the handler panic, modelled as
`none`. -/
def headerCT : Option (List Nat) → Option (List Char)
  | none => some ctDefault
  | some bs => headerToStr? bs

/-- Bytes of a message string (actix turns text bodies into bytes). -/
def chBytes (s : List Char) : List Nat := s.map Char.toNat

def noUrlMsg : List Char := "No URL specified".toList
def unsupportedMsg : List Char :=
  "Unsupported protocol. Only HTTP and HTTPS are allowed.".toList
def invalidDomainMsg : List Char := "Invalid domain name".toList
def fwdFailMsg : List Char := "Failed to forward request: ".toList
def readFailMsg : List Char := "Failed to read response body: ".toList

/-- An HTTP response produced by the handler. -/
structure HttpResp where
  status : Nat
  headers : List (List Char × List Char)
  body : List Nat
deriving DecidableEq

/-- A 400 response with a fixed text body (`HttpResponse::BadRequest().body(..)`). -/
def badReq (msg : List Char) : HttpResp := ⟨400, [], chBytes msg⟩

/-- The 405 response with empty body (`HttpResponse::MethodNotAllowed().finish()`). -/
def mna405 : HttpResp := ⟨405, [], []⟩

/-- A 502 response with a diagnostic text body (`HttpResponse::BadGateway().body(..)`). -/
def badGw (msg : List Char) : HttpResp := ⟨502, [], chBytes msg⟩

/-- The five headers appended on the success path, in source order
(main.rs lines 93-100). -/
def corsHeaders (ct : List Char) : List (List Char × List Char) :=
  [("Access-Control-Allow-Origin".toList, "*".toList),
   ("Access-Control-Allow-Methods".toList, "GET, POST, PUT, DELETE, OPTIONS".toList),
   ("Access-Control-Allow-Headers".toList, "Content-Type".toList),
   ("Access-Control-Max-Age".toList, "3600".toList),
   ("Content-Type".toList, ct)]

/-- The 200 success response (main.rs lines 92-101). -/
def okResp (ct : List Char) (b : List Nat) : HttpResp := ⟨200, corsHeaders ct, b⟩

/-- An outbound request issued via the reqwest client (main.rs lines 61-64):
the builder sets method, URL and body, and never adds a header. -/
structure OutReq where
  method : OutMethod
  url : List Char
  headers : List (List Char × List Char)
  body : List Nat
deriving DecidableEq

/-- Rejection kinds (the 400/405 early exits). -/
inductive Reject
  | missingURL | unsupportedProtocol | invalidDomain | methodNotAllowed
deriving DecidableEq

/-- Gateway error kinds (the 502 exits). -/
inductive GwErr
  | upstreamUnreachable | upstreamBodyReadError
deriving DecidableEq

/-- Dispatch stages of the handler, in the vocabulary of the spec's state
machine, plus `panicked` for the `unwrap` abort of main.rs line 78. -/
inductive Stage
  | start | urlValidated | methodValidated | forwarded | responseBuilt
  | rejected (r : Reject) | gatewayError (g : GwErr) | panicked
deriving DecidableEq

/-- Everything one invocation of the handler does: the response it returns
(`none` = the handler panicked and produced no response), the outbound
requests it issued, and the dispatch stages it passed through. -/
structure HandlerOut where
  resp : Option HttpResp
  calls : List OutReq
  trace : List Stage
deriving DecidableEq

/-- The handler `cors_proxy` of main.rs lines 7-102, as a pure function of
the captured `{url}` segment, inbound method, inbound headers (never read)
and inbound body bytes, parameterised by the upstream oracle.  The control
flow mirrors the source exactly: URL presence, protocol check, domain
check, normalization, method allowlist, send, Content-Type extraction
(which `unwrap`s and may panic), body read, response assembly. -/
def cors_proxy (up : Upstream) (urlOpt : Option (List Char)) (m : InMethod)
    (inHeaders : List (List Char × List Char)) (body : List Nat) : HandlerOut :=
  match urlOpt with
  | none =>
    ⟨some (badReq noUrlMsg), [], [.start, .rejected .missingURL]⟩
  | some url =>
    if protoRejected url then
      ⟨some (badReq unsupportedMsg), [], [.start, .rejected .unsupportedProtocol]⟩
    else if !hasDot url then
      ⟨some (badReq invalidDomainMsg), [], [.start, .rejected .invalidDomain]⟩
    else
      let nurl := normalizeUrl url
      match toOutMethod m with
      | none =>
        ⟨some mna405, [], [.start, .urlValidated, .rejected .methodNotAllowed]⟩
      | some om =>
        match up om nurl body with
        | .transportError e =>
          ⟨some (badGw (fwdFailMsg ++ e)), [⟨om, nurl, [], body⟩],
           [.start, .urlValidated, .methodValidated,
            .gatewayError .upstreamUnreachable]⟩
        | .response _st cth bres =>
          match headerCT cth with
          | none =>
            ⟨none, [⟨om, nurl, [], body⟩],
             [.start, .urlValidated, .methodValidated, .forwarded, .panicked]⟩
          | some ct =>
            match bres with
            | .err e =>
              ⟨some (badGw (readFailMsg ++ e)), [⟨om, nurl, [], body⟩],
               [.start, .urlValidated, .methodValidated, .forwarded,
                .gatewayError .upstreamBodyReadError]⟩
            | .ok ub =>
              ⟨some (okResp ct ub), [⟨om, nurl, [], body⟩],
               [.start, .urlValidated, .methodValidated, .forwarded,
                .responseBuilt]⟩

/-! ## Helper lemmas about the string machinery -/

theorem isPrefixOf_append_self (l s : List Char) : l.isPrefixOf (l ++ s) = true := by
  induction l with
  | nil => simp
  | cons a as ih => simp [List.isPrefixOf_cons₂, ih]

theorem containsSub_cons (c : Char) (t pat : List Char)
    (h : containsSub (c :: t) pat = false) :
    pat.isPrefixOf (c :: t) = false ∧ containsSub t pat = false := by
  simpa [containsSub] using h

theorem lastPieceGo_noSep (s : List Char) (h : containsSub s sepL = false)
    (acc : List Char) : lastPieceGo acc s = acc := by
  induction s generalizing acc with
  | nil => rfl
  | cons c t ih =>
    obtain ⟨h1, h2⟩ := containsSub_cons c t sepL h
    simp [lastPieceGo, h1, ih h2]

theorem lastPiece_noSep (s : List Char) (h : containsSub s sepL = false) :
    lastPiece s = s := lastPieceGo_noSep s h s

theorem lastPieceGo_https (X s : List Char) :
    lastPieceGo X (httpsL ++ s) = lastPieceGo s s := by
  simp [httpsL, lastPieceGo, sepL, List.isPrefixOf_cons₂]

theorem lastPiece_https_noSep (s : List Char) (h : containsSub s sepL = false) :
    lastPiece (httpsL ++ s) = s := by
  show lastPieceGo (httpsL ++ s) (httpsL ++ s) = s
  rw [lastPieceGo_https]
  exact lastPieceGo_noSep s h s

theorem normalizeUrl_idem (s : List Char) :
    normalizeUrl (normalizeUrl s) = normalizeUrl s := by
  by_cases h1 : httpL.isPrefixOf s = true
  · simp [normalizeUrl, h1]
  · by_cases h2 : httpsL.isPrefixOf s = true
    · simp [normalizeUrl, h2]
    · simp [normalizeUrl, h1, h2, isPrefixOf_append_self]

/-- The handler issues at most one outbound request, on every input. -/
theorem calls_length_le_one (up : Upstream) (urlOpt : Option (List Char)) (m : InMethod)
    (hdrs : List (List Char × List Char)) (body : List Nat) :
    (cors_proxy up urlOpt m hdrs body).calls.length ≤ 1 := by
  cases urlOpt with
  | none => simp [cors_proxy]
  | some url =>
    rcases Bool.eq_false_or_eq_true (protoRejected url) with hp | hp
    · simp [cors_proxy, hp]
    · rcases Bool.eq_false_or_eq_true (hasDot url) with hd | hd
      · cases hm : toOutMethod m with
        | none => simp [cors_proxy, hp, hd, hm]
        | some om =>
          cases hup : up om (normalizeUrl url) body with
          | transportError e => simp [cors_proxy, hp, hd, hm, hup]
          | response st cth bres =>
            cases hct : headerCT cth with
            | none => simp [cors_proxy, hp, hd, hm, hup, hct]
            | some ct =>
              cases bres with
              | ok ub => simp [cors_proxy, hp, hd, hm, hup, hct]
              | err e => simp [cors_proxy, hp, hd, hm, hup, hct]
      · simp [cors_proxy, hp, hd]

/-- A URL that passed both validation checks, once normalized, starts with
"http://" or "https://" and its post-"://" portion contains a dot. -/
theorem normalized_invariant (url : List Char)
    (h1 : protoRejected url = false) (h2 : hasDot url = true) :
    (httpL.isPrefixOf (normalizeUrl url) = true ∨
     httpsL.isPrefixOf (normalizeUrl url) = true) ∧
    (lastPiece (normalizeUrl url)).contains '.' = true := by
  rcases Bool.eq_false_or_eq_true (httpL.isPrefixOf url) with ha | ha
  · have hn : normalizeUrl url = url := by simp [normalizeUrl, ha]
    rw [hn]
    exact ⟨Or.inl ha, h2⟩
  · rcases Bool.eq_false_or_eq_true (httpsL.isPrefixOf url) with hb | hb
    · have hn : normalizeUrl url = url := by simp [normalizeUrl, hb]
      rw [hn]
      exact ⟨Or.inr hb, h2⟩
    · have hns : containsSub url sepL = false := by
        simpa [protoRejected, ha, hb] using h1
      have hn : normalizeUrl url = httpsL ++ url := by simp [normalizeUrl, ha, hb]
      rw [hn]
      refine ⟨Or.inr (isPrefixOf_append_self _ _), ?_⟩
      rw [lastPiece_https_noSep url hns]
      have hl := lastPiece_noSep url hns
      rw [← hl]
      exact h2

/-! ## Claim theorems -/

/-- C5: for every path string that contains the substring "://" and starts
with neither "http://" nor "https://", the handler returns status 400 with
body exactly "Unsupported protocol. Only HTTP and HTTPS are allowed.", and
no outbound network call is made (the rejection precedes all network I/O). -/
theorem c5_unsupported_protocol (up : Upstream) (m : InMethod)
    (hdrs : List (List Char × List Char)) (body : List Nat) (url : List Char)
    (h1 : containsSub url sepL = true)
    (h2 : httpL.isPrefixOf url = false)
    (h3 : httpsL.isPrefixOf url = false) :
    (cors_proxy up (some url) m hdrs body).resp = some (badReq unsupportedMsg) ∧
    (cors_proxy up (some url) m hdrs body).calls = [] := by
  have hp : protoRejected url = true := by simp [protoRejected, h1, h2, h3]
  simp [cors_proxy, hp]

/-- Witness for C5 at the concrete input "ftp://example.com" with method GET. -/
theorem c5_witness :
    (cors_proxy (fun _ _ _ => UpstreamResult.transportError [])
        (some "ftp://example.com".toList) .get [] []).resp
      = some (badReq unsupportedMsg) ∧
    (cors_proxy (fun _ _ _ => UpstreamResult.transportError [])
        (some "ftp://example.com".toList) .get [] []).calls = [] :=
  c5_unsupported_protocol _ _ _ _ _ (by decide) (by decide) (by decide)

/-- C6: for every path string that passes the protocol check, if the
portion after the last occurrence of "://" (or all of the string when
"://" is absent — `lastPiece`) contains no '.', the handler returns 400
with body exactly "Invalid domain name" and makes no outbound call. -/
theorem c6_invalid_domain (up : Upstream) (m : InMethod)
    (hdrs : List (List Char × List Char)) (body : List Nat) (url : List Char)
    (h1 : protoRejected url = false)
    (h2 : hasDot url = false) :
    (cors_proxy up (some url) m hdrs body).resp = some (badReq invalidDomainMsg) ∧
    (cors_proxy up (some url) m hdrs body).calls = [] := by
  simp [cors_proxy, h1, h2]

/-- Witness for C6 at the concrete input "localhost" with method GET. -/
theorem c6_witness :
    (cors_proxy (fun _ _ _ => UpstreamResult.transportError [])
        (some "localhost".toList) .get [] []).resp
      = some (badReq invalidDomainMsg) ∧
    (cors_proxy (fun _ _ _ => UpstreamResult.transportError [])
        (some "localhost".toList) .get [] []).calls = [] :=
  c6_invalid_domain _ _ _ _ _ (by decide) (by decide)

/-- C4: the dispatch follows Start, URLValidated, MethodValidated,
Forwarded, ResponseBuilt in that order; URL validation precedes method
validation; each rejection or gateway-error is terminal (nothing follows it
in the trace) and — except for the panic of main.rs line 78, which is not
one of those states — the handler immediately produces an HTTP response. -/
theorem c4_stage_order (up : Upstream) (urlOpt : Option (List Char)) (m : InMethod)
    (hdrs : List (List Char × List Char)) (body : List Nat) :
    ((cors_proxy up urlOpt m hdrs body).trace = [.start, .rejected .missingURL] ∨
     (cors_proxy up urlOpt m hdrs body).trace = [.start, .rejected .unsupportedProtocol] ∨
     (cors_proxy up urlOpt m hdrs body).trace = [.start, .rejected .invalidDomain] ∨
     (cors_proxy up urlOpt m hdrs body).trace
       = [.start, .urlValidated, .rejected .methodNotAllowed] ∨
     (cors_proxy up urlOpt m hdrs body).trace
       = [.start, .urlValidated, .methodValidated, .gatewayError .upstreamUnreachable] ∨
     (cors_proxy up urlOpt m hdrs body).trace
       = [.start, .urlValidated, .methodValidated, .forwarded, .panicked] ∨
     (cors_proxy up urlOpt m hdrs body).trace
       = [.start, .urlValidated, .methodValidated, .forwarded,
          .gatewayError .upstreamBodyReadError] ∨
     (cors_proxy up urlOpt m hdrs body).trace
       = [.start, .urlValidated, .methodValidated, .forwarded, .responseBuilt]) ∧
    (Stage.panicked ∉ (cors_proxy up urlOpt m hdrs body).trace →
      ∃ r0, (cors_proxy up urlOpt m hdrs body).resp = some r0) := by
  cases urlOpt with
  | none => exact ⟨Or.inl rfl, fun _ => ⟨_, rfl⟩⟩
  | some url =>
    rcases Bool.eq_false_or_eq_true (protoRejected url) with hp | hp
    · simp [cors_proxy, hp]
    · rcases Bool.eq_false_or_eq_true (hasDot url) with hd | hd
      · cases hm : toOutMethod m with
        | none => simp [cors_proxy, hp, hd, hm]
        | some om =>
          cases hup : up om (normalizeUrl url) body with
          | transportError e => simp [cors_proxy, hp, hd, hm, hup]
          | response st cth bres =>
            cases hct : headerCT cth with
            | none => simp [cors_proxy, hp, hd, hm, hup, hct]
            | some ct =>
              cases bres with
              | ok ub => simp [cors_proxy, hp, hd, hm, hup, hct]
              | err e => simp [cors_proxy, hp, hd, hm, hup, hct]
      · simp [cors_proxy, hp, hd]

/-- Witness for C4: at a concrete successful run, the trace lies in the
enumerated shapes and the no-panic implication yields a response. -/
theorem c4_witness :
    ∃ r0, (cors_proxy (fun _ _ _ => UpstreamResult.response 200 none (.ok []))
        (some "example.com".toList) .get [] []).resp = some r0 :=
  (c4_stage_order (fun _ _ _ => UpstreamResult.response 200 none (.ok []))
    (some "example.com".toList) .get [] []).2 (by decide)

/-- C1: every run that reaches the ResponseBuilt stage (a successful
forward) produces status 200 — whatever status the upstream oracle
reported — with exactly the five headers Access-Control-Allow-Origin: *,
Access-Control-Allow-Methods: GET, POST, PUT, DELETE, OPTIONS,
Access-Control-Allow-Headers: Content-Type, Access-Control-Max-Age: 3600
and Content-Type (see `corsHeaders`). -/
theorem c1_success_status_and_headers (up : Upstream) (urlOpt : Option (List Char))
    (m : InMethod) (hdrs : List (List Char × List Char)) (body : List Nat)
    (h : Stage.responseBuilt ∈ (cors_proxy up urlOpt m hdrs body).trace) :
    ∃ ct ub, (cors_proxy up urlOpt m hdrs body).resp
      = some ⟨200, corsHeaders ct, ub⟩ := by
  cases urlOpt with
  | none => simp [cors_proxy] at h
  | some url =>
    rcases Bool.eq_false_or_eq_true (protoRejected url) with hp | hp
    · simp [cors_proxy, hp] at h
    · rcases Bool.eq_false_or_eq_true (hasDot url) with hd | hd
      · cases hm : toOutMethod m with
        | none => simp [cors_proxy, hp, hd, hm] at h
        | some om =>
          cases hup : up om (normalizeUrl url) body with
          | transportError e => simp [cors_proxy, hp, hd, hm, hup] at h
          | response st cth bres =>
            cases hct : headerCT cth with
            | none => simp [cors_proxy, hp, hd, hm, hup, hct] at h
            | some ct =>
              cases bres with
              | ok ub =>
                exact ⟨ct, ub, by simp [cors_proxy, hp, hd, hm, hup, hct, okResp]⟩
              | err e => simp [cors_proxy, hp, hd, hm, hup, hct] at h
      · simp [cors_proxy, hp, hd] at h

/-- Witness for C1: a concrete run whose upstream answers with status 503
still yields a 200 response carrying the five headers. -/
theorem c1_witness :
    Stage.responseBuilt ∈ (cors_proxy
        (fun _ _ _ => UpstreamResult.response 503 none (.ok [1, 2]))
        (some "example.com".toList) .get [] []).trace ∧
    ∃ ct ub, (cors_proxy
        (fun _ _ _ => UpstreamResult.response 503 none (.ok [1, 2]))
        (some "example.com".toList) .get [] []).resp
      = some ⟨200, corsHeaders ct, ub⟩ :=
  ⟨by decide, c1_success_status_and_headers _ _ _ _ _ (by decide)⟩

/-- C3 counterexample: the claim asserts a 405 for every disallowed method
regardless of URL validity, but with method PATCH and the invalid-protocol
path "ftp://example.com" the handler answers 400 with the
unsupported-protocol body, not 405 with an empty body: URL validation runs
first (main.rs lines 8-40 precede lines 47-58). -/
theorem c3_counterexample :
    (cors_proxy (fun _ _ _ => UpstreamResult.transportError [])
        (some "ftp://example.com".toList) .patch [] []).resp
      = some (badReq unsupportedMsg) ∧
    (cors_proxy (fun _ _ _ => UpstreamResult.transportError [])
        (some "ftp://example.com".toList) .patch [] []).resp ≠ some mna405 := by
  exact ⟨by decide, by decide⟩

/-- C3 amended: for every inbound method outside {GET, POST, PUT, DELETE}
no outbound network call is ever made, and for every path string that
passes URL validation the handler returns 405 with an empty body; for path
strings failing validation the corresponding 400 response is produced
instead, because URL validation precedes the method check. -/
theorem c3_amended (up : Upstream) (url : List Char) (m : InMethod)
    (hdrs : List (List Char × List Char)) (body : List Nat)
    (hm : toOutMethod m = none) :
    (cors_proxy up (some url) m hdrs body).calls = [] ∧
    (protoRejected url = false → hasDot url = true →
      (cors_proxy up (some url) m hdrs body).resp = some mna405) := by
  rcases Bool.eq_false_or_eq_true (protoRejected url) with hp | hp
  · constructor
    · simp [cors_proxy, hp]
    · intro hp2
      rw [hp] at hp2
      cases hp2
  · rcases Bool.eq_false_or_eq_true (hasDot url) with hd | hd
    · exact ⟨by simp [cors_proxy, hp, hd, hm], fun _ _ => by simp [cors_proxy, hp, hd, hm]⟩
    · constructor
      · simp [cors_proxy, hp, hd]
      · intro _ hd2
        rw [hd] at hd2
        cases hd2

/-- Witness for C3's amended theorem at method PATCH and the valid path
"example.com". -/
theorem c3_witness :
    (cors_proxy (fun _ _ _ => UpstreamResult.transportError [])
        (some "example.com".toList) .patch [] []).calls = [] ∧
    (cors_proxy (fun _ _ _ => UpstreamResult.transportError [])
        (some "example.com".toList) .patch [] []).resp = some mna405 :=
  ⟨(c3_amended (fun _ _ _ => UpstreamResult.transportError [])
      "example.com".toList .patch [] [] rfl).1,
   (c3_amended (fun _ _ _ => UpstreamResult.transportError [])
      "example.com".toList .patch [] [] rfl).2 (by decide) (by decide)⟩

/-- C7: for every path string that passes validation and an allowlisted
method, the URL handed to the outbound client is "https://" ++ s when s
starts with neither "http://" nor "https://" and s unchanged otherwise,
and normalization is idempotent. -/
theorem c7_normalization (up : Upstream) (m : InMethod) (om : OutMethod)
    (hdrs : List (List Char × List Char)) (body : List Nat) (url : List Char)
    (h1 : protoRejected url = false) (h2 : hasDot url = true)
    (h3 : toOutMethod m = some om) :
    ((cors_proxy up (some url) m hdrs body).calls.map OutReq.url
      = [if !httpL.isPrefixOf url && !httpsL.isPrefixOf url
         then httpsL ++ url else url]) ∧
    (∀ s, normalizeUrl (normalizeUrl s) = normalizeUrl s) := by
  refine ⟨?_, normalizeUrl_idem⟩
  cases hup : up om (normalizeUrl url) body with
  | transportError e =>
    simp only [cors_proxy, h1, h2, h3, hup]
    simp [normalizeUrl]
  | response st cth bres =>
    cases hct : headerCT cth with
    | none =>
      simp only [cors_proxy, h1, h2, h3, hup, hct]
      simp [normalizeUrl]
    | some ct =>
      cases bres with
      | ok ub =>
        simp only [cors_proxy, h1, h2, h3, hup, hct]
        simp [normalizeUrl]
      | err e =>
        simp only [cors_proxy, h1, h2, h3, hup, hct]
        simp [normalizeUrl]

/-- Witness for C7 at the concrete scheme-less input "example.com": the
forwarded URL is "https://" ++ "example.com". -/
theorem c7_witness :
    ((cors_proxy (fun _ _ _ => UpstreamResult.transportError [])
        (some "example.com".toList) .get [] []).calls.map OutReq.url
      = [if !httpL.isPrefixOf "example.com".toList
            && !httpsL.isPrefixOf "example.com".toList
         then httpsL ++ "example.com".toList else "example.com".toList]) ∧
    (∀ s, normalizeUrl (normalizeUrl s) = normalizeUrl s) :=
  c7_normalization (fun _ _ _ => UpstreamResult.transportError []) .get .get [] []
    "example.com".toList (by decide) (by decide) rfl

/-- C8 counterexample: with an upstream whose response carries the
non-decodable Content-Type byte 128 and whose body read fails, the
outbound request succeeds (one call is made), the body read fails, and yet
the handler returns no 502 — it panics on the Content-Type unwrap before
ever reading the body (main.rs line 78 precedes line 83). -/
theorem c8_counterexample :
    (cors_proxy (fun _ _ _ => UpstreamResult.response 200 (some [128]) (.err ['x']))
        (some "example.com".toList) .get [] []).resp = none ∧
    (cors_proxy (fun _ _ _ => UpstreamResult.response 200 (some [128]) (.err ['x']))
        (some "example.com".toList) .get [] []).calls.length = 1 := by
  exact ⟨by decide, by decide⟩

/-- C8 amended: on transport failure the handler returns 502 with body
"Failed to forward request: " ++ err; if the outbound request succeeds but
the body read fails — and the upstream Content-Type is absent or decodable,
otherwise the handler panics first (see C2) — it returns 502 with body
"Failed to read response body: " ++ err; in all cases at most one
forwarding attempt is made per inbound request. -/
theorem c8_gateway_errors (up : Upstream) (m : InMethod) (om : OutMethod)
    (hdrs : List (List Char × List Char)) (body : List Nat) (url : List Char)
    (h1 : protoRejected url = false) (h2 : hasDot url = true)
    (h3 : toOutMethod m = some om) :
    (∀ e, up om (normalizeUrl url) body = .transportError e →
      (cors_proxy up (some url) m hdrs body).resp
        = some (badGw (fwdFailMsg ++ e))) ∧
    (∀ st cth ct e, up om (normalizeUrl url) body = .response st cth (.err e) →
      headerCT cth = some ct →
      (cors_proxy up (some url) m hdrs body).resp
        = some (badGw (readFailMsg ++ e))) ∧
    (∀ (up2 : Upstream) urlOpt2 m2 hdrs2 body2,
      (cors_proxy up2 urlOpt2 m2 hdrs2 body2).calls.length ≤ 1) := by
  refine ⟨?_, ?_, fun up2 u2 m2 hd2 b2 => calls_length_le_one up2 u2 m2 hd2 b2⟩
  · intro e hup
    simp [cors_proxy, h1, h2, h3, hup]
  · intro st cth ct e hup hct
    simp [cors_proxy, h1, h2, h3, hup, hct]

/-- Witness for C8's amended theorem: a concrete transport failure with
error text "boom" yields the 502 with the exact diagnostic body. -/
theorem c8_witness :
    (cors_proxy (fun _ _ _ => UpstreamResult.transportError "boom".toList)
        (some "example.com".toList) .get [] []).resp
      = some (badGw (fwdFailMsg ++ "boom".toList)) :=
  (c8_gateway_errors (fun _ _ _ => UpstreamResult.transportError "boom".toList)
      .get .get [] [] "example.com".toList (by decide) (by decide) rfl).1
    "boom".toList rfl

/-- C2 at its failing input: the upstream Content-Type header is present
but not a valid header value (byte 255 is not visible ASCII), and the
handler panics — it produces no response at all instead of falling back to
"application/json" as the claim requires. -/
theorem c2_panic_on_undecodable_content_type :
    (cors_proxy (fun _ _ _ => UpstreamResult.response 200 (some [255]) (.ok []))
        (some "example.com".toList) .get [] []).resp = none ∧
    Stage.panicked ∈ (cors_proxy
        (fun _ _ _ => UpstreamResult.response 200 (some [255]) (.ok []))
        (some "example.com".toList) .get [] []).trace := by
  exact ⟨by decide, by decide⟩

/-- C9: every outbound request carries the inbound body bytes verbatim and
no headers; the handler's output does not depend on the inbound headers at
all; and every 200 response's body is exactly the byte buffer the upstream
returned. -/
theorem c9_verbatim (up : Upstream) (urlOpt : Option (List Char)) (m : InMethod)
    (hdrs : List (List Char × List Char)) (body : List Nat) :
    (∀ c ∈ (cors_proxy up urlOpt m hdrs body).calls,
      c.body = body ∧ c.headers = []) ∧
    (∀ hdrs2, cors_proxy up urlOpt m hdrs2 body = cors_proxy up urlOpt m hdrs body) ∧
    (∀ r, (cors_proxy up urlOpt m hdrs body).resp = some r → r.status = 200 →
      ∃ url om st cth, urlOpt = some url ∧ toOutMethod m = some om ∧
        up om (normalizeUrl url) body = .response st cth (.ok r.body)) := by
  refine ⟨?_, fun _ => rfl, ?_⟩
  · cases urlOpt with
    | none => simp [cors_proxy]
    | some url =>
      rcases Bool.eq_false_or_eq_true (protoRejected url) with hp | hp
      · simp [cors_proxy, hp]
      · rcases Bool.eq_false_or_eq_true (hasDot url) with hd | hd
        · cases hm : toOutMethod m with
          | none => simp [cors_proxy, hp, hd, hm]
          | some om =>
            cases hup : up om (normalizeUrl url) body with
            | transportError e => simp [cors_proxy, hp, hd, hm, hup]
            | response st cth bres =>
              cases hct : headerCT cth with
              | none => simp [cors_proxy, hp, hd, hm, hup, hct]
              | some ct =>
                cases bres with
                | ok ub => simp [cors_proxy, hp, hd, hm, hup, hct]
                | err e => simp [cors_proxy, hp, hd, hm, hup, hct]
        · simp [cors_proxy, hp, hd]
  · intro r hr h200
    cases urlOpt with
    | none =>
      simp [cors_proxy, badReq] at hr
      rw [← hr] at h200
      simp at h200
    | some url =>
      rcases Bool.eq_false_or_eq_true (protoRejected url) with hp | hp
      · simp [cors_proxy, hp, badReq] at hr
        rw [← hr] at h200
        simp at h200
      · rcases Bool.eq_false_or_eq_true (hasDot url) with hd | hd
        · cases hm : toOutMethod m with
          | none =>
            simp [cors_proxy, hp, hd, hm, mna405] at hr
            rw [← hr] at h200
            simp at h200
          | some om =>
            cases hup : up om (normalizeUrl url) body with
            | transportError e =>
              simp [cors_proxy, hp, hd, hm, hup, badGw] at hr
              rw [← hr] at h200
              simp at h200
            | response st cth bres =>
              cases hct : headerCT cth with
              | none => simp [cors_proxy, hp, hd, hm, hup, hct] at hr
              | some ct =>
                cases bres with
                | ok ub =>
                  simp [cors_proxy, hp, hd, hm, hup, hct, okResp] at hr
                  refine ⟨url, om, st, cth, rfl, rfl, ?_⟩
                  rw [hup, ← hr]
                | err e =>
                  simp [cors_proxy, hp, hd, hm, hup, hct, badGw] at hr
                  rw [← hr] at h200
                  simp at h200
        · simp [cors_proxy, hp, hd, badReq] at hr
          rw [← hr] at h200
          simp at h200

/-- Witness for C9: a concrete run with inbound body [5, 6] whose upstream
returns the bytes [9, 8]: the one outbound call carries [5, 6] and no
headers, and the 200 response's body is exactly the upstream bytes. -/
theorem c9_witness :
    (∀ c ∈ (cors_proxy (fun _ _ _ => UpstreamResult.response 200 none (.ok [9, 8]))
        (some "example.com".toList) .get [] [5, 6]).calls,
      c.body = [5, 6] ∧ c.headers = []) ∧
    (∃ url om st cth, (some "example.com".toList : Option (List Char)) = some url ∧
      toOutMethod .get = some om ∧
      (fun _ _ _ => UpstreamResult.response 200 none (.ok [9, 8]) : Upstream)
          om (normalizeUrl url) [5, 6]
        = .response st cth (.ok (HttpResp.mk 200 (corsHeaders ctDefault) [9, 8]).body)) :=
  ⟨(c9_verbatim (fun _ _ _ => UpstreamResult.response 200 none (.ok [9, 8]))
      (some "example.com".toList) .get [] [5, 6]).1,
   (c9_verbatim (fun _ _ _ => UpstreamResult.response 200 none (.ok [9, 8]))
      (some "example.com".toList) .get [] [5, 6]).2.2
     ⟨200, corsHeaders ctDefault, [9, 8]⟩ (by decide) rfl⟩

/-- C10: every URL actually handed to the outbound client starts with
"http://" or "https://", and the portion after its last "://" contains at
least one '.' character. -/
theorem c10_forwarded_url_invariant (up : Upstream) (urlOpt : Option (List Char))
    (m : InMethod) (hdrs : List (List Char × List Char)) (body : List Nat)
    (c : OutReq) (hc : c ∈ (cors_proxy up urlOpt m hdrs body).calls) :
    (httpL.isPrefixOf c.url = true ∨ httpsL.isPrefixOf c.url = true) ∧
    (lastPiece c.url).contains '.' = true := by
  cases urlOpt with
  | none => simp [cors_proxy] at hc
  | some url =>
    rcases Bool.eq_false_or_eq_true (protoRejected url) with hp | hp
    · simp [cors_proxy, hp] at hc
    · rcases Bool.eq_false_or_eq_true (hasDot url) with hd | hd
      · cases hm : toOutMethod m with
        | none => simp [cors_proxy, hp, hd, hm] at hc
        | some om =>
          have key := normalized_invariant url hp hd
          cases hup : up om (normalizeUrl url) body with
          | transportError e =>
            simp [cors_proxy, hp, hd, hm, hup] at hc
            rw [hc]
            exact key
          | response st cth bres =>
            cases hct : headerCT cth with
            | none =>
              simp [cors_proxy, hp, hd, hm, hup, hct] at hc
              rw [hc]
              exact key
            | some ct =>
              cases bres with
              | ok ub =>
                simp [cors_proxy, hp, hd, hm, hup, hct] at hc
                rw [hc]
                exact key
              | err e =>
                simp [cors_proxy, hp, hd, hm, hup, hct] at hc
                rw [hc]
                exact key
      · simp [cors_proxy, hp, hd] at hc

/-- Witness for C10: the call made for the scheme-less input "example.com"
targets "https://example.com", which starts with "https://" and whose
post-"://" portion contains a dot. -/
theorem c10_witness :
    (httpL.isPrefixOf (httpsL ++ "example.com".toList) = true ∨
     httpsL.isPrefixOf (httpsL ++ "example.com".toList) = true) ∧
    (lastPiece (httpsL ++ "example.com".toList)).contains '.' = true :=
  c10_forwarded_url_invariant (fun _ _ _ => UpstreamResult.transportError [])
    (some "example.com".toList) .get [] []
    ⟨.get, httpsL ++ "example.com".toList, [], []⟩ (by decide)

end Rcp
